import Mathlib

set_option maxRecDepth 100000

/-!
Verification model of the `schedule_assistant` repository (`db.py`,
`reminder.py`, `nlp.py`).

The Python code is shallowly embedded as executable Lean definitions:
datetimes are proleptic-Gregorian calendar records in the single configured
local zone (Asia/Ho_Chi_Minh, +07:00 — the only zone the program ever uses,
so zone conversions are identities), SQLite rows are records, and the
regular-expression work of `nlp.py` is embedded as explicit character-list
scanners that follow Python `re` semantics (leftmost match, alternation
order, greedy/lazy repetition, word-boundary lookarounds evaluated on the
original string).
-/

namespace SchedAssist

/-! ## Calendar arithmetic

Models the parts of Python `datetime` / `dateutil` the repository uses.
Day numbers count days since 0000-03-01 (proleptic Gregorian), via the
standard era-based civil-calendar conversion; valid for every date the
program manipulates (years ≥ 1).
-/

def isLeapYear (y : Nat) : Bool :=
  (y % 4 == 0 && y % 100 != 0) || y % 400 == 0

def daysInMonth (y m : Nat) : Nat :=
  if m == 2 then (if isLeapYear y then 29 else 28)
  else if m == 4 || m == 6 || m == 9 || m == 11 then 30
  else 31

/-- Days since 0000-03-01 of the civil date y-m-d (era-based conversion). -/
def daysFromCivil (y m d : Nat) : Nat :=
  let y' := if m ≤ 2 then y - 1 else y
  let era := y' / 400
  let yoe := y' % 400
  let mp := (m + 9) % 12
  let doy := (153 * mp + 2) / 5 + (d - 1)
  let doe := yoe * 365 + yoe / 4 - yoe / 100 + doy
  era * 146097 + doe

/-- Inverse of `daysFromCivil`: the civil date (y, m, d) of a day number. -/
def civilFromDays (z : Nat) : Nat × Nat × Nat :=
  let era := z / 146097
  let doe := z % 146097
  let yoe := (doe + doe / 36524 - doe / 1460 - doe / 146096) / 365
  let doy := doe - (365 * yoe + yoe / 4 - yoe / 100)
  let mp := (5 * doy + 2) / 153
  let d := doy - (153 * mp + 2) / 5 + 1
  let m := if mp < 10 then mp + 3 else mp - 9
  (if m ≤ 2 then era * 400 + yoe + 1 else era * 400 + yoe, m, d)

/-- Python `datetime.date`. -/
structure PyDate where
  year : Nat
  month : Nat
  day : Nat
  deriving DecidableEq, Repr

/-- Python tz-aware `datetime` in the fixed local zone (+07:00).
No microsecond field: every instant the program stores went through
`replace(microsecond=0)` / minute flooring, and the ISO strings it writes
carry no fractional part. -/
structure PyDateTime where
  year : Nat
  month : Nat
  day : Nat
  hour : Nat
  minute : Nat
  second : Nat
  deriving DecidableEq, Repr

def PyDate.toDays (d : PyDate) : Nat := daysFromCivil d.year d.month d.day

/-- Python `date.weekday()`: Monday = 0 … Sunday = 6. -/
def PyDate.weekday (d : PyDate) : Nat := (d.toDays + 2) % 7

/-- Models `date + timedelta(days = n)` (the repository only ever adds days). -/
def PyDate.addDays (d : PyDate) (n : Nat) : PyDate :=
  let c := civilFromDays (d.toDays + n)
  ⟨c.1, c.2.1, c.2.2⟩

/-- Seconds since 0000-03-01T00:00:00 in the local zone. -/
def toSecs (dt : PyDateTime) : Nat :=
  daysFromCivil dt.year dt.month dt.day * 86400
    + dt.hour * 3600 + dt.minute * 60 + dt.second

def ofSecs (n : Nat) : PyDateTime :=
  let c := civilFromDays (n / 86400)
  let r := n % 86400
  ⟨c.1, c.2.1, c.2.2, r / 3600, r % 3600 / 60, r % 60⟩

/-- Models `datetime ± timedelta`.  The truncation at zero is never reached for
the instants the program manipulates (all far above year 1). -/
def addSecs (dt : PyDateTime) (k : Int) : PyDateTime :=
  ofSecs ((toSecs dt : Int) + k).toNat

/-- Models `datetime + timedelta(days = n)` (no DST in Asia/Ho_Chi_Minh, so a day
is exactly 86400 seconds). -/
def addDays (dt : PyDateTime) (n : Int) : PyDateTime :=
  addSecs dt (n * 86400)

/-- Models `dateutil.relativedelta(months=1)`: next month, same day-of-month
clamped to the target month's length. -/
def addMonths1 (dt : PyDateTime) : PyDateTime :=
  let y := if dt.month = 12 then dt.year + 1 else dt.year
  let m := if dt.month = 12 then 1 else dt.month + 1
  { dt with year := y, month := m, day := min dt.day (daysInMonth y m) }

/-- Models `_floor_to_min` (reminder.py) and `replace(second=0, microsecond=0)`. -/
def floorMin (dt : PyDateTime) : PyDateTime := { dt with second := 0 }

def PyDateTime.dateOf (dt : PyDateTime) : PyDate := ⟨dt.year, dt.month, dt.day⟩

/-- Models `datetime.combine(d, time(h, mn))` localized to the fixed zone. -/
def combine (d : PyDate) (h mn : Nat) : PyDateTime := ⟨d.year, d.month, d.day, h, mn, 0⟩

/-! ## ISO-8601 strings

`to_iso` (nlp.py) and `datetime.isoformat()` always render
`YYYY-MM-DDTHH:MM:SS+07:00` for the instants this program builds
(tz-aware, zero microseconds).  `_parse_iso` (reminder.py) wraps
`dateutil.parser.isoparse`; the model accepts the ISO shapes the program
itself writes — `YYYY-MM-DD` optionally followed by `THH:MM[:SS]` and an
optional literal `+07:00` offset — and rejects everything else, as
`isoparse` rejects malformed input by raising.
-/

def pad2 (n : Nat) : String := if n < 10 then "0" ++ toString n else toString n

def pad4 (n : Nat) : String :=
  if n < 10 then "000" ++ toString n
  else if n < 100 then "00" ++ toString n
  else if n < 1000 then "0" ++ toString n
  else toString n

/-- Models `datetime.isoformat()` of a tz-aware instant in the fixed zone. -/
def isoFormat (dt : PyDateTime) : String :=
  pad4 dt.year ++ "-" ++ pad2 dt.month ++ "-" ++ pad2 dt.day ++ "T"
    ++ pad2 dt.hour ++ ":" ++ pad2 dt.minute ++ ":" ++ pad2 dt.second ++ "+07:00"

def digitVal (c : Char) : Option Nat :=
  if c.isDigit then some (c.toNat - 48) else none

def read2 : List Char → Option (Nat × List Char)
  | c1 :: c2 :: rest =>
    match digitVal c1, digitVal c2 with
    | some a, some b => some (a * 10 + b, rest)
    | _, _ => none
  | _ => none

def read4 : List Char → Option (Nat × List Char)
  | c1 :: c2 :: c3 :: c4 :: rest =>
    match digitVal c1, digitVal c2, digitVal c3, digitVal c4 with
    | some a, some b, some c, some d => some (a * 1000 + b * 100 + c * 10 + d, rest)
    | _, _, _, _ => none
  | _ => none

def expectChar (c : Char) : List Char → Option (List Char)
  | x :: rest => if x = c then some rest else none
  | [] => none

/-- Time-of-day / offset tail of an ISO string, after `YYYY-MM-DD`. -/
def parseIsoTail (y m d : Nat) : List Char → Option PyDateTime
  | [] => some ⟨y, m, d, 0, 0, 0⟩
  | 'T' :: rest =>
    match read2 rest with
    | none => none
    | some (h, rest1) =>
      match expectChar ':' rest1 with
      | none => none
      | some rest2 =>
        match read2 rest2 with
        | none => none
        | some (mi, rest3) =>
          let secAndTz : Option (Nat × List Char) :=
            match rest3 with
            | ':' :: rest4 =>
              match read2 rest4 with
              | some (s, rest5) => some (s, rest5)
              | none => none
            | _ => some (0, rest3)
          match secAndTz with
          | none => none
          | some (s, tz) =>
            if h < 24 && mi < 60 && s < 60 && (tz = [] || tz = "+07:00".data)
            then some ⟨y, m, d, h, mi, s⟩ else none
  | _ => none

/-- Models `_parse_iso` (reminder.py): `isoparse` returning `none` on failure. -/
def parseIso (str : String) : Option PyDateTime :=
  match read4 str.data with
  | none => none
  | some (y, r1) =>
    match expectChar '-' r1 with
    | none => none
    | some r2 =>
      match read2 r2 with
      | none => none
      | some (m, r3) =>
        match expectChar '-' r3 with
        | none => none
        | some r4 =>
          match read2 r4 with
          | none => none
          | some (d, r5) =>
            if 1 ≤ m && m ≤ 12 && 1 ≤ d && d ≤ daysInMonth y m
            then parseIsoTail y m d r5 else none

/-! ## Event store (db.py)

A SQLite `events` row.  `repeatRule` models the `repeat` column
(`repeat` is a reserved word in Lean).  Integer-typed columns are `Int`,
nullable text columns are `Option String`.
-/

structure EventRow where
  id : Nat
  event : String
  start_time : String
  end_time : Option String := none
  location : Option String := none
  reminder_minutes : Option Int := some 15
  notified : Int := 0
  importance : String := "normal"
  repeat_count : Int := 0
  isStop : Int := 0
  next_notify : Option String := none
  repeatRule : Option String := none
  pending_auto_mark : Int := 0
  deriving DecidableEq, Repr

/-- A value bound to the single `?` placeholder of an UPDATE. -/
inductive DBValue where
  | s : String → DBValue
  | i : Int → DBValue
  | null : DBValue
  deriving DecidableEq, Repr

/-- The allow-list of `update_event_field` (db.py). -/
def allowedUpdateFields : List String :=
  ["event", "start_time", "end_time", "location", "reminder_minutes",
   "notified", "importance", "repeat_count", "isStop", "next_notify",
   "repeat", "pending_auto_mark"]

def DBValue.asText (v : DBValue) (old : String) : String :=
  match v with
  | .s x => x
  | .i n => toString n
  | .null => old

def DBValue.asOptText (v : DBValue) : Option String :=
  match v with
  | .s x => some x
  | .i n => some (toString n)
  | .null => none

def DBValue.asInt (v : DBValue) (old : Int) : Int :=
  match v with
  | .i n => n
  | _ => old

def DBValue.asOptInt (v : DBValue) (old : Option Int) : Option Int :=
  match v with
  | .i n => some n
  | .null => none
  | .s _ => old

/-- Models `UPDATE events SET {field} = ? WHERE id = ?` applied to one row.
SQLite's dynamic typing is modelled for type-correct values; the
allow-list check of `update_event_field` (claim C7) is independent of the
stored value. -/
def setField (r : EventRow) (f : String) (v : DBValue) : EventRow :=
  if f = "event" then { r with event := v.asText r.event }
  else if f = "start_time" then { r with start_time := v.asText r.start_time }
  else if f = "end_time" then { r with end_time := v.asOptText }
  else if f = "location" then { r with location := v.asOptText }
  else if f = "reminder_minutes" then { r with reminder_minutes := v.asOptInt r.reminder_minutes }
  else if f = "notified" then { r with notified := v.asInt r.notified }
  else if f = "importance" then { r with importance := v.asText r.importance }
  else if f = "repeat_count" then { r with repeat_count := v.asInt r.repeat_count }
  else if f = "isStop" then { r with isStop := v.asInt r.isStop }
  else if f = "next_notify" then { r with next_notify := v.asOptText }
  else if f = "repeat" then { r with repeatRule := v.asOptText }
  else if f = "pending_auto_mark" then { r with pending_auto_mark := v.asInt r.pending_auto_mark }
  else r

/-- Models `update_event_field` (db.py): the allow-list is checked first and a
`ValueError` is raised — before any store access — when the field is not
allowed; otherwise the single field is updated on the matching row. -/
def updateEventField (store : List EventRow) (eid : Nat) (f : String) (v : DBValue) :
    Except String (List EventRow) :=
  if f ∉ allowedUpdateFields then
    .error ("Field " ++ f ++ " not allowed to update.")
  else
    .ok (store.map fun r => if r.id = eid then setField r f v else r)

/-- Models `mark_notified` (db.py): `SET notified = 1, next_notify = NULL,
pending_auto_mark = 0 WHERE id = ?`. -/
def markNotified (store : List EventRow) (eid : Nat) : List EventRow :=
  store.map fun r =>
    if r.id = eid then { r with notified := 1, next_notify := none, pending_auto_mark := 0 }
    else r

/-! ## Reminder engine (reminder.py)

One poll-tick evaluation of a single event (`reminder_loop` body).  The
observable effects are the updated row, whether a desktop notification was
sent, and the alert appended to the in-memory feed.
-/

/-- Models `{"normal": 1, "important": 2, "critical": 3}.get(importance, 1)`. -/
def importanceCap (imp : String) : Int :=
  if imp = "normal" then 1
  else if imp = "important" then 2
  else if imp = "critical" then 3
  else 1

/-- An `add_streamlit_alert` record. -/
structure Alert where
  event : String
  time : String
  location : Option String
  importance : String
  deriving DecidableEq, Repr

structure TickOutcome where
  row : EventRow
  fired : Bool
  alert : Option Alert
  deriving DecidableEq, Repr

/-- Models `_schedule_next_occurrence` (reminder.py): for a fixed cadence, the new
start and the new `next_notify`; `none` models `return False` (no cadence,
empty cadence, or an unrecognized cadence tag such as `every_2_ngay`). -/
def scheduleNextOccurrence (rep : Option String) (startDt : PyDateTime)
    (reminderMin : Int) : Option (PyDateTime × PyDateTime) :=
  match rep with
  | none => none
  | some r =>
    if r = "" then none
    else
      let newStart : Option PyDateTime :=
        if r = "daily" then some (addDays startDt 1)
        else if r = "weekly" then some (addDays startDt 7)
        else if r = "monthly" then some (addMonths1 startDt)
        else none
      newStart.map fun ns => (ns, floorMin (addSecs ns (-(reminderMin * 60))))

/-- Effective `next_notify` of the tick: the stored value when present and
parseable (a stored-but-unparseable value yields `none`, i.e. never due),
else `base_remind = floor_to_minute(start − reminder_lead)`; floored. -/
def effNextNotify (ev : EventRow) (startFloored : PyDateTime) : Option PyDateTime :=
  let reminderMin : Int := ev.reminder_minutes.getD 0
  let baseRemind := floorMin (addSecs startFloored (-(reminderMin * 60)))
  let nn : Option PyDateTime :=
    match ev.next_notify with
    | some s => if s = "" then some baseRemind else parseIso s
    | none => some baseRemind
  nn.map floorMin

/-- Models `secs_until = (next_notify - now_local).total_seconds()`; `none` models
`float('inf')`. -/
def secsUntil (now : PyDateTime) (ev : EventRow) (startFloored : PyDateTime) : Option Int :=
  (effNextNotify ev startFloored).map fun nn => (toSecs nn : Int) - toSecs now

def isDue (now : PyDateTime) (ev : EventRow) (startFloored : PyDateTime) : Bool :=
  match secsUntil now ev startFloored with
  | some s => decide (s ≤ 0)
  | none => false

/-- One `reminder_loop` tick on one event (reminder.py lines 88–191):
skip stopped rows and rows whose `start_time` does not parse; auto-mark
when `pending_auto_mark` is set and the event is due; otherwise fire while
`repeat_count` is under the importance cap, rescheduling
`next_notify = now + REPEAT_DELAY` under the cap and, at the cap, either
rolling a fixed-cadence event to its next occurrence or closing the event. -/
def processEvent (now : PyDateTime) (ev : EventRow) : TickOutcome :=
  if ev.isStop = 1 then ⟨ev, false, none⟩
  else
    match parseIso ev.start_time with
    | none => ⟨ev, false, none⟩
    | some start0 =>
      let startDt := floorMin start0
      let reminderMin : Int := ev.reminder_minutes.getD 0
      let due := isDue now ev startDt
      let maxRepeat := importanceCap ev.importance
      let rc := ev.repeat_count
      if ev.pending_auto_mark = 1 ∧ due then
        ⟨{ ev with isStop := 1, notified := 1, next_notify := none,
                   pending_auto_mark := 0 }, false, none⟩
      else if due ∧ rc < maxRepeat then
        let alert : Option Alert := some ⟨ev.event, ev.start_time, ev.location, ev.importance⟩
        if rc + 1 < maxRepeat then
          ⟨{ ev with repeat_count := rc + 1,
                     next_notify := some (isoFormat (floorMin (addSecs now 60))) }, true, alert⟩
        else
          match scheduleNextOccurrence ev.repeatRule startDt reminderMin with
          | some (ns, nn) =>
            ⟨{ ev with start_time := isoFormat ns, repeat_count := 0, notified := 0,
                       next_notify := some (isoFormat nn), pending_auto_mark := 0 }, true, alert⟩
          | none =>
            ⟨{ ev with repeat_count := rc + 1, notified := 1, isStop := 1,
                       next_notify := none, pending_auto_mark := 0 }, true, alert⟩
      else ⟨ev, false, none⟩

/-! ## Text scanners (nlp.py)

Python `re` is embedded as explicit character-list scanners.  `re.sub`
replaces every non-overlapping leftmost match scanning left to right;
`re.search` returns the leftmost match, trying alternation branches in
written order at each position.  Word-boundary lookarounds inspect the
characters of the string being scanned.  The character classes restrict
Python's Unicode-aware `\w`, `\s`, `lower()` and NFKD folding to the
alphabet this program's tables and inputs use (ASCII plus lowercase
Vietnamese letters; uppercase accented letters do not occur in the
analysed inputs because every scanned string is lowercased first).
-/

/-- Lowercase Vietnamese letters (precomposed, NFC, as in the source). -/
def vietLetters : List Char :=
  ['à', 'á', 'ả', 'ã', 'ạ', 'ă', 'ằ', 'ắ', 'ẳ', 'ẵ', 'ặ',
   'â', 'ầ', 'ấ', 'ẩ', 'ẫ', 'ậ',
   'è', 'é', 'ẻ', 'ẽ', 'ẹ', 'ê', 'ề', 'ế', 'ể', 'ễ', 'ệ',
   'ì', 'í', 'ỉ', 'ĩ', 'ị',
   'ò', 'ó', 'ỏ', 'õ', 'ọ', 'ô', 'ồ', 'ố', 'ổ', 'ỗ', 'ộ',
   'ơ', 'ờ', 'ớ', 'ở', 'ỡ', 'ợ',
   'ù', 'ú', 'ủ', 'ũ', 'ụ', 'ư', 'ừ', 'ứ', 'ử', 'ữ', 'ự',
   'ỳ', 'ý', 'ỷ', 'ỹ', 'ỵ', 'đ']

/-- The combining acute accent U+0301 (not a word character). -/
def combiningAcute : Char := Char.ofNat 769

/-- Python `\w` on this program's alphabet. -/
def isWordChar (c : Char) : Bool :=
  c.isAlphanum || c = '_' || vietLetters.contains c

/-- Python `\s` on this program's alphabet. -/
def isSpaceChar (c : Char) : Bool :=
  c = ' ' || c = '\t' || c = '\n' || c = '\r'

/-- Models `str.lower()` (ASCII; accented capitals never reach the scanners). -/
def pyLowerChar (c : Char) : Char :=
  if 'A' ≤ c && c ≤ 'Z' then Char.ofNat (c.toNat + 32) else c

def lowerL (s : List Char) : List Char := s.map pyLowerChar

/-- Models `str.strip()`. -/
def stripL (s : List Char) : List Char :=
  ((s.dropWhile isSpaceChar).reverse.dropWhile isSpaceChar).reverse

/-- NFKD decomposition with combining marks removed, per character
(`remove_diacritics`).  `đ` has no NFKD decomposition and survives. -/
def baseChars (c : Char) : List Char :=
  if c = 'đ' then ['đ']
  else if c = combiningAcute then []
  else if ['à', 'á', 'ả', 'ã', 'ạ', 'ă', 'ằ', 'ắ', 'ẳ', 'ẵ', 'ặ',
           'â', 'ầ', 'ấ', 'ẩ', 'ẫ', 'ậ'].contains c then ['a']
  else if ['è', 'é', 'ẻ', 'ẽ', 'ẹ', 'ê', 'ề', 'ế', 'ể', 'ễ', 'ệ'].contains c then ['e']
  else if ['ì', 'í', 'ỉ', 'ĩ', 'ị'].contains c then ['i']
  else if ['ò', 'ó', 'ỏ', 'õ', 'ọ', 'ô', 'ồ', 'ố', 'ổ', 'ỗ', 'ộ',
           'ơ', 'ờ', 'ớ', 'ở', 'ỡ', 'ợ'].contains c then ['o']
  else if ['ù', 'ú', 'ủ', 'ũ', 'ụ', 'ư', 'ừ', 'ứ', 'ử', 'ữ', 'ự'].contains c then ['u']
  else if ['ỳ', 'ý', 'ỷ', 'ỹ', 'ỵ'].contains c then ['y']
  else [c]

/-- Models `remove_diacritics` on a character list. -/
def removeDiacriticsL (s : List Char) : List Char := s.flatMap baseChars

/-- The word-character flag of position `k` of `l` (the last character an
`re.sub` match consumed, feeding the next lookbehind). -/
def wordAt (l : List Char) (k : Nat) : Bool :=
  match l.get? k with
  | some ch => isWordChar ch
  | none => false

/-- Models `re.sub` driver, fuelled for structural recursion: `m prev suffix`
inspects the lookbehind flag `prev` (whether the previous character of
the scanned string is a word character) and the current suffix;
`some (rep, k)` emits `rep` and consumes `k + 1` characters.  Every step
consumes at least one character, so fuel `length + 1` never runs out and
the zero-fuel branch is unreachable. -/
def subDriverF (m : Bool → List Char → Option (List Char × Nat)) :
    Nat → Bool → List Char → List Char
  | 0, _, _ => []
  | _ + 1, _, [] => []
  | fuel + 1, prev, c :: rest =>
    match m prev (c :: rest) with
    | some (rep, k) => rep ++ subDriverF m fuel (wordAt (c :: rest) k) (List.drop k rest)
    | none => c :: subDriverF m fuel (isWordChar c) rest

def subDriver (m : Bool → List Char → Option (List Char × Nat))
    (prev : Bool) (s : List Char) : List Char :=
  subDriverF m (s.length + 1) prev s

/-- Models `re.search` driver: leftmost match wins. -/
def searchDriver {α : Type} (m : Bool → List Char → Option α) :
    Bool → List Char → Option α
  | _, [] => none
  | prev, c :: rest =>
    match m prev (c :: rest) with
    | some a => some a
    | none => searchDriver m (isWordChar c) rest

def noWordAt (s : List Char) : Bool :=
  match s with
  | [] => true
  | c :: _ => ! isWordChar c

/-- Match a literal here, returning the rest. -/
def dropLit (lit s : List Char) : Option (List Char) :=
  if lit.isPrefixOf s then some (List.drop lit.length s) else none

/-- Models `re.sub((?<!\w)LIT(?!\w), VAL, s)`: word-bounded literal replacement. -/
def subWordLit (lit val : List Char) (s : List Char) : List Char :=
  subDriver (fun prev suf =>
    if !prev && lit ≠ [] && lit.isPrefixOf suf && noWordAt (List.drop lit.length suf)
    then some (val, lit.length - 1) else none) false s

/-- Models `str.replace(LIT, VAL)`: unbounded replacement of all occurrences. -/
def replaceAllLit (lit val : List Char) (s : List Char) : List Char :=
  subDriver (fun _ suf =>
    if lit ≠ [] && lit.isPrefixOf suf then some (val, lit.length - 1) else none) false s

/-- Models `LIT in s` (plain substring test). -/
def containsLit (lit s : List Char) : Bool :=
  lit = [] || (searchDriver (fun _ suf =>
    if lit.isPrefixOf suf then some () else none) false s).isSome

/-- Models `re.search((?<!\w)LIT(?!\w), s)` as a Boolean. -/
def containsWordLit (lit s : List Char) : Bool :=
  (searchDriver (fun prev suf =>
    if !prev && lit.isPrefixOf suf && noWordAt (List.drop lit.length suf)
    then some () else none) false s).isSome

/-! ### The shorthand and numeral tables of nlp.py -/

/-- Models `ASCII_MAP` after Python dict-literal semantics: a duplicated key
keeps its first position and its last value (`"toi"` ↦ `"tôi"`,
`"ngay mai"` ↦ `"mai"`; the other duplicates repeat equal values). -/
def ASCII_MAP : List (String × String) :=
  [("gio", "giờ"), ("g", "giờ"), ("h", "giờ"),
   ("phut", "phút"), ("ph", "phút"), ("p", "phút"),
   ("sang", "sáng"), ("trua", "trưa"), ("chieu", "chiều"), ("toi", "tôi"), ("dem", "đêm"),
   ("tui", "tui"), ("minh", "mình"),
   ("tao", "tạo"), ("tao ra", "tạo"), ("tao cho", "tạo cho"), ("giup", "giúp"), ("hay", "hãy"),
   ("tuần sau", "tuần sau"), ("tuan sau", "tuần sau"),
   ("tuần tới", "tuần tới"), ("tuan toi", "tuần tới"),
   ("cuối tuần", "cuối tuần"), ("cuoi tuan", "cuối tuần"),
   ("giữa tuần", "giữa tuần"), ("giu a tuan", "giữa tuần"),
   ("dau tuần", "đầu tuần"), ("dau tuan", "đầu tuần"),
   ("tháng sau", "tháng sau"), ("thang sau", "tháng sau"),
   ("buoi sang", "sáng"), ("buoi trua", "trưa"), ("buoi chieu", "chiều"), ("buoi toi", "tối"),
   ("ban dem", "đêm"), ("khuya", "khuya"), ("som", "sớm"),
   ("toi nay", "tối nay"), ("sang nay", "sáng nay"), ("chieu nay", "chiều nay"),
   ("tois mai", "tối mai"), ("chieu mai", "chiều mai"), ("sang mai", "sáng mai"),
   ("ngay mai", "mai"), ("ngay", "ngày"), ("ngay nua", "ngày nữa"),
   ("motngay", "một ngày"), ("motngaynua", "một ngày nữa"), ("mot ngay nua", "một ngày nữa"),
   ("ngay mot", "ngày mốt"), ("ngay mốt", "ngày mốt"),
   ("ngay hom nay", "hôm nay"), ("ngay kia", "mốt"), ("mot ngay ", "một ngày"),
   ("tuan nay", "tuần này"), ("tuan truoc", "tuần trước"),
   ("thang nay", "tháng này"), ("thang toi", "tháng tới"),
   ("cuoi thang", "cuối tháng"), ("giua thang", "giữa tháng"), ("dau thang", "đầu tháng"),
   ("giua tuan", "giữa tuần"),
   ("nhac", "nhắc"), ("nhac nho", "nhắc nhở"), ("bao", "bảo"), ("goi", "gọi"),
   ("lap", "lập"), ("hen", "hẹn"), ("dat", "đặt"),
   ("tao lich", "tạo lịch"), ("tao su kien", "tạo sự kiện"), ("them", "thêm"),
   ("nhacj", "nhắc"), ("nhawk", "nhắc"), ("nhacn", "nhắc"), ("thoigian", "thời gian"),
   ("nhacws", "nhắc"), ("phutj", "phút"), ("phutw", "phút"), ("gioj", "giờ"),
   ("phuts", "phút"), ("phut s", "phút"), ("giow", "giờ"), ("giowf", "giờ"),
   ("giof", "giờ"), ("gjo", "giờ"), ("pjut", "phút"), ("phujt", "phút"),
   ("luk", "lúc"), ("dk", "được"), ("hop", "họp"), ("hopj", "họp"), ("hopw", "họp"),
   ("di lam", "đi làm"), ("di hoc", "đi học"), ("di choi", "đi chơi"),
   ("gap", "gặp"), ("hen gap", "hẹn gặp"), ("hop nhom", "họp nhóm"),
   ("cf", "cà phê"), ("cafe", "cà phê"), ("truong", "trường"), ("quan", "quán")]

/-- Stable insertion (descending key length), matching Python's stable
`sorted(keys, key=len, reverse=True)`. -/
def insertLenDesc {α : Type} (key : α → String) (x : α) : List α → List α
  | [] => [x]
  | y :: ys => if (key x).length ≤ (key y).length then y :: insertLenDesc key x ys
               else x :: y :: ys

def sortLenDesc {α : Type} (key : α → String) (l : List α) : List α :=
  l.foldl (fun acc x => insertLenDesc key x acc) []

/-- Models `apply_ascii_map`: longest keys first; for each key, substitute the
key itself, then (when different) its diacritics-stripped variant, both
at word boundaries only. -/
def applyAsciiMap (s : List Char) : List Char :=
  (sortLenDesc Prod.fst ASCII_MAP).foldl (fun txt kv =>
    let k := kv.1.data
    let v := kv.2.data
    let t1 := subWordLit k v txt
    let knd := removeDiacriticsL k
    if knd ≠ k then subWordLit knd v t1 else t1) s

/-- Models `VN_NUM` (no duplicate keys). -/
def VN_NUM : List (String × Nat) :=
  [("không", 0), ("mot", 1), ("một", 1),
   ("hai", 2), ("ba", 3), ("bốn", 4), ("bon", 4), ("tư", 4),
   ("năm", 5), ("nam", 5), ("sáu", 6), ("sau", 6), ("bay", 7), ("bảy", 7),
   ("tam", 8), ("tám", 8), ("chín", 9), ("chin", 9), ("muoi", 10), ("mười", 10),
   ("mười một", 11), ("muoi mot", 11), ("mười hai", 12), ("muoi hai", 12),
   ("muoi ba", 13), ("muoi bon", 14), ("muoi lam", 15), ("muoi sau", 16),
   ("muoi bay", 17), ("muoi tam", 18), ("muoi chin", 19),
   ("hai muoi", 20), ("hai muoi mot", 21), ("hai muoi hai", 22), ("hai muoi ba", 23),
   ("ba muoi", 30), ("bon muoi", 40), ("nam muoi", 50), ("sau muoi", 60)]

/-- Models `replace_vn_num`: longest phrases first, word-bounded. -/
def replaceVnNum (s : List Char) : List Char :=
  (sortLenDesc Prod.fst VN_NUM).foldl (fun txt kv =>
    subWordLit kv.1.data (Nat.repr kv.2).data txt) s

/-- Models `re.sub(r'\bm[ôo]́?t\b', '__MOT__', t)`: protect the
day-after-tomorrow word before shorthand expansion. -/
def subProtectMot (s : List Char) : List Char :=
  subDriver (fun prev suf =>
    if prev then none
    else
      match suf with
      | 'm' :: c2 :: rest =>
        if c2 = 'ô' || c2 = 'o' then
          match rest with
          | [] => none
          | c3 :: r3 =>
            if c3 = combiningAcute then
              match r3 with
              | 't' :: r4 => if noWordAt r4 then some ("__MOT__".data, 3) else none
              | _ => none
            else if c3 = 't' then
              (if noWordAt r3 then some ("__MOT__".data, 2) else none)
            else none
        else none
      | _ => none) false s

def isPunctC (c : Char) : Bool := c = ',' || c = ';' || c = '(' || c = ')'

/-- Models `re.sub(r"[,;()]+", " ", t)`: each punctuation run becomes one space. -/
def subPunctRun (s : List Char) : List Char :=
  subDriver (fun _ suf =>
    let n := (suf.takeWhile isPunctC).length
    if n = 0 then none else some ([' '], n - 1)) false s

/-- Models `re.sub(r"\s+", " ", t)`: collapse whitespace runs. -/
def collapseWs (s : List Char) : List Char :=
  subDriver (fun _ suf =>
    let n := (suf.takeWhile isSpaceChar).length
    if n = 0 then none else some ([' '], n - 1)) false s

def mapDotColon (s : List Char) : List Char :=
  s.map fun c => if c = '.' then ':' else c

/-- Models `norm` (nlp.py): lowercase and strip; protect `mốt`; expand the
shorthand table; spell out numerals as digits; periods to colons;
punctuation to spaces; collapse whitespace; restore `mốt`. -/
def norm (raw : String) : String :=
  let t0 := stripL (lowerL raw.data)
  let t1 := subProtectMot t0
  let t2 := applyAsciiMap t1
  let t3 := replaceVnNum t2
  let t4 := mapDotColon t3
  let t5 := subPunctRun t4
  let t6 := stripL (collapseWs t5)
  let t7 := replaceAllLit "__MOT__".data "mốt".data t6
  String.mk t7

/-! ### Time-of-day extraction (`extract_time`) -/

def digitsToNat (ds : List Char) : Nat :=
  ds.foldl (fun a c => a * 10 + (c.toNat - 48)) 0

def takeDigitRun (s : List Char) : List Char × List Char :=
  (s.takeWhile Char.isDigit, s.dropWhile Char.isDigit)

def dropSpacesL (s : List Char) : List Char := s.dropWhile isSpaceChar

/-- Models `\b(\d{1,2}):(\d{1,2})\b` at one position (greedy `\d{1,2}` with
backtracking against the colon and the closing boundary). -/
def matchTimeColon (prev : Bool) (suf : List Char) : Option (Nat × Nat) :=
  if prev then none
  else
    [2, 1].findSome? fun hlen =>
      let hs := suf.take hlen
      if hs.length = hlen && hs.all Char.isDigit &&
          (suf.drop hlen).take 1 = [':'] then
        let rest := suf.drop (hlen + 1)
        [2, 1].findSome? fun mlen =>
          let ms := rest.take mlen
          if ms.length = mlen && ms.all Char.isDigit && noWordAt (rest.drop mlen)
          then some (digitsToNat hs, digitsToNat ms) else none
      else none

/-- Models `(?:h|giờ)` alternation: `some rest` after the matched unit. -/
def dropHGio (s : List Char) : Option (List Char) :=
  match dropLit "h".data s with
  | some r => some r
  | none => dropLit "giờ".data s

/-- Models `\b(\d{1,2})\s*(?:h|giờ)\s*(\d{1,2})\b` at one position. -/
def matchTimeHGio (prev : Bool) (suf : List Char) : Option (Nat × Nat) :=
  if prev then none
  else
    [2, 1].findSome? fun hlen =>
      let hs := suf.take hlen
      if hs.length = hlen && hs.all Char.isDigit then
        match dropHGio (dropSpacesL (suf.drop hlen)) with
        | none => none
        | some rest =>
          let rest2 := dropSpacesL rest
          [2, 1].findSome? fun mlen =>
            let ms := rest2.take mlen
            if ms.length = mlen && ms.all Char.isDigit && noWordAt (rest2.drop mlen)
            then some (digitsToNat hs, digitsToNat ms) else none
      else none

/-- Models `\b(\d{1,2})\s*(?:h|giờ)\b` at one position. -/
def matchTimeHOnly (prev : Bool) (suf : List Char) : Option Nat :=
  if prev then none
  else
    [2, 1].findSome? fun hlen =>
      let hs := suf.take hlen
      if hs.length = hlen && hs.all Char.isDigit then
        match dropHGio (dropSpacesL (suf.drop hlen)) with
        | none => none
        | some rest => if noWordAt rest then some (digitsToNat hs) else none
      else none

/-- The sequential day-segment adjustments of `extract_time` (only for the
`giờ`-style patterns, not the colon pattern). -/
def adjustHour (t : List Char) (h : Nat) : Nat :=
  let h1 := if containsWordLit "sáng".data t && h = 12 then 0 else h
  let h2 := if containsWordLit "trưa".data t && h1 < 12 then 12 else h1
  if (containsWordLit "chiều".data t || containsWordLit "tối".data t ||
      containsWordLit "đêm".data t) && h2 < 12 then h2 + 12 else h2

/-- Models `extract_time` (nlp.py): colon form first, then `H giờ MM`, then
bare `H giờ`. -/
def extractTime (t : List Char) : Option (Nat × Nat) :=
  match searchDriver matchTimeColon false t with
  | some (h, mn) => some (h, mn)
  | none =>
    match searchDriver matchTimeHGio false t with
    | some (h, mn) => some (adjustHour t h, mn)
    | none =>
      match searchDriver matchTimeHOnly false t with
      | some h => some (adjustHour t h, 0)
      | none => none

/-- Models `guess_natural_time` (nlp.py). -/
def guessNaturalTime (t : List Char) : Option (Nat × Nat) :=
  if containsWordLit "tầm chiều".data t || containsWordLit "tam chieu".data t
  then some (15, 0)
  else if containsWordLit "tầm tối".data t || containsWordLit "tam toi".data t
  then some (19, 0)
  else if containsLit "giữa trưa".data t || containsLit "giu a trua".data t
  then some (12, 0)
  else none

/-! ### Date extraction (`extract_date`, `extract_advanced_relative_date`) -/

def WEEKDAY : List (String × Nat) :=
  [("thu hai", 0), ("th2", 0), ("hai", 0),
   ("thu ba", 1), ("th3", 1), ("ba", 1),
   ("thu tu", 2), ("th4", 2), ("tu", 2),
   ("thu nam", 3), ("th5", 3), ("nam", 3),
   ("thu sau", 4), ("th6", 4), ("sau", 4),
   ("thu bay", 5), ("th7", 5), ("bay", 5),
   ("chu nhat", 6), ("cn", 6)]

/-- Models `extract_advanced_relative_date` (nlp.py); `now` stands for the
`datetime.now(LOCAL_TZ)` the function reads. -/
def extractAdvancedRelativeDate (now : PyDateTime) (t : List Char) : Option PyDate :=
  let nowD := now.dateOf
  let wd := nowD.weekday
  if containsLit "tuần sau".data t || containsLit "tuan sau".data t ||
     containsLit "tuần tới".data t || containsLit "tuan toi".data t then
    some (nowD.addDays 7)
  else if containsLit "cuối tuần".data t || containsLit "cuoi tuan".data t then
    some (nowD.addDays (6 - wd))
  else if containsLit "đầu tuần".data t || containsLit "dau tuan".data t then
    some (nowD.addDays (if wd = 0 then 7 else 7 - wd))
  else if containsLit "tháng sau".data t || containsLit "thang sau".data t then
    let y := if nowD.month + 1 > 12 then nowD.year + 1 else nowD.year
    let m := if nowD.month + 1 > 12 then 1 else nowD.month + 1
    some ⟨y, m, min nowD.day 28⟩
  else none

/-- Models `date(y, mo, d)` with Python's constructor validation. -/
def mkValidDate (y mo d : Nat) : Option PyDate :=
  if 1 ≤ y && y ≤ 9999 && 1 ≤ mo && mo ≤ 12 && 1 ≤ d && d ≤ daysInMonth y mo
  then some ⟨y, mo, d⟩ else none

/-- Models `(\d+)\s*ngày nua|\b(\d+)\s*ngay nua` at one position. -/
def matchNgayNua (prev : Bool) (suf : List Char) : Option Nat :=
  let (ds, rest) := takeDigitRun suf
  if ds = [] then none
  else
    let rest2 := dropSpacesL rest
    if "ngày nua".data.isPrefixOf rest2 then some (digitsToNat ds)
    else if !prev && "ngay nua".data.isPrefixOf rest2 then some (digitsToNat ds)
    else none

/-- The explicit-date pattern at one position: one or two digits, a
slash or dash separator, one or two digits, optionally another separator
and a 2-to-4-digit year (greedy). -/
def matchExplicitDate (suf : List Char) : Option (Nat × Nat × Option Nat) :=
  [2, 1].findSome? fun dlen =>
    let ds := suf.take dlen
    if ds.length = dlen && ds.all Char.isDigit &&
        ((suf.drop dlen).take 1 = ['/'] || (suf.drop dlen).take 1 = ['-']) then
      let afterSep := suf.drop (dlen + 1)
      [2, 1].findSome? fun mlen =>
        let ms := afterSep.take mlen
        if ms.length = mlen && ms.all Char.isDigit then
          let rest := afterSep.drop mlen
          let yearOpt : Option Nat :=
            if rest.take 1 = ['/'] || rest.take 1 = ['-'] then
              let yrest := rest.drop 1
              [4, 3, 2].findSome? fun ylen =>
                let ys := yrest.take ylen
                if ys.length = ylen && ys.all Char.isDigit
                then some (digitsToNat ys) else none
            else none
          some (digitsToNat ds, digitsToNat ms, yearOpt)
        else none
    else none

/-- Models `extract_date` (nlp.py).  The `(ngày|ngay)\s+(mốt|mot|mót|môt)` branch
of the source is unreachable (the bare `mốt` family already matched) and
is therefore absorbed. -/
def extractDate (now : PyDateTime) (t : List Char) : Option PyDate :=
  let today := now.dateOf
  match extractAdvancedRelativeDate now t with
  | some d => some d
  | none =>
    if containsWordLit "hôm nay".data t || containsWordLit "hom nay".data t then
      some today
    else if containsWordLit "mai".data t then some (today.addDays 1)
    else if containsWordLit "mốt".data t || containsWordLit "mot".data t ||
        containsWordLit "mót".data t || containsWordLit "môt".data t then
      some (today.addDays 2)
    else
      match searchDriver matchNgayNua false t with
      | some n => some (today.addDays n)
      | none =>
        match WEEKDAY.find? (fun kv => containsLit kv.1.data t) with
        | some kv =>
          let delta := (kv.2 + 7 - today.weekday) % 7
          some (today.addDays (if delta = 0 then 7 else delta))
        | none =>
          match searchDriver (fun _ suf => matchExplicitDate suf) false t with
          | some (d, mo, yOpt) =>
            let y := match yOpt with
              | some yv => if yv < 100 then yv + 2000 else yv
              | none => today.year
            mkValidDate y mo d
          | none => none

/-! ### Reminder, cadence, location extraction -/

/-- The unit alternation of `extract_reminder`, in written order. -/
def reminderUnits : List String :=
  ["phút", "phut", "p", "ph", "giờ", "g", "h", "ngày", "ngay"]

/-- The tail of the reminder pattern after the optional pronoun:
`\s*(?:trước)?\s*(\d+)\s*(unit)?`. -/
def remTail (s : List Char) : Option (Nat × Option String) :=
  let s1 := dropSpacesL s
  let s2 := match dropLit "trước".data s1 with
    | some r => dropSpacesL r
    | none => s1
  let (ds, s3) := takeDigitRun s2
  if ds = [] then none
  else
    let s4 := dropSpacesL s3
    let unit := reminderUnits.find? fun u => u.data.isPrefixOf s4
    some (digitsToNat ds, unit)

/-- Models `nhắc(?: tôi| tui)?\s*(?:trước)?\s*(\d+)\s*(unit)?` at one position. -/
def matchReminder (suf : List Char) : Option (Nat × Option String) :=
  match dropLit "nhắc".data suf with
  | none => none
  | some r =>
    (((dropLit " tôi".data r).bind remTail).orElse fun _ =>
      ((dropLit " tui".data r).bind remTail)).orElse fun _ => remTail r

/-- Models `extract_reminder` (nlp.py): default 15 minutes; days ×1440; hours ×60. -/
def extractReminder (t : List Char) : Nat :=
  match searchDriver (fun _ suf => matchReminder suf) false t with
  | none => 15
  | some (n, unitOpt) =>
    let unit := unitOpt.getD "phút"
    if containsLit "ngày".data unit.data || containsLit "ngay".data unit.data then
      n * 1440
    else if unit = "giờ" || unit = "gio" || unit = "g" || unit = "h" then n * 60
    else n

/-- Models `moi\s+(\d+)\s*(ngay|tuan|thang)` at one position. -/
def matchMoiN (suf : List Char) : Option (Nat × String) :=
  match dropLit "moi".data suf with
  | none => none
  | some r =>
    let ns := (r.takeWhile isSpaceChar).length
    if ns = 0 then none
    else
      let (ds, r2) := takeDigitRun (r.drop ns)
      if ds = [] then none
      else
        let r3 := dropSpacesL r2
        (["ngay", "tuan", "thang"].find? fun u => u.data.isPrefixOf r3).map
          fun u => (digitsToNat ds, u)

/-- Models `extract_repeat` (nlp.py): fixed daily/weekly/monthly keyword sets,
then the parametrized `every_N_unit` pattern. -/
def extractRepeat (t : List Char) : Option String :=
  if containsLit "mỗi ngày".data t || containsLit "moi ngay".data t ||
     containsLit "hàng ngày".data t || containsLit "hang ngay".data t then
    some "daily"
  else if containsLit "mỗi tuần".data t || containsLit "moi tuan".data t ||
      containsLit "hang tuan".data t || containsLit "hàng tuần".data t then
    some "weekly"
  else if containsLit "mỗi tháng".data t || containsLit "moi thang".data t ||
      containsLit "hang thang".data t || containsLit "hàng tháng".data t then
    some "monthly"
  else
    (searchDriver (fun _ suf => matchMoiN suf) false t).map
      fun nu => "every_" ++ Nat.repr nu.1 ++ "_" ++ nu.2

/-- Case-insensitive prefix (re.IGNORECASE; ASCII folding — the accented
alternatives and the analysed inputs are already lowercase). -/
def isPrefixIC : List Char → List Char → Bool
  | [], _ => true
  | _ :: _, [] => false
  | a :: xs, b :: ys => (pyLowerChar a = pyLowerChar b) && isPrefixIC xs ys

def locStop (c : Char) : Bool := c = ',' || c = '.' || c = ';'

/-- Models `\b(?:ở|tại|o|tai)\s+([^,.;]+)` at one position: greedy `\s+`, with
the single-step backtrack that lets the capture start on the last space
when the first non-space character is a separator. -/
def matchLocation (alts : List String) (ci : Bool) (prev : Bool) (suf : List Char) :
    Option (List Char) :=
  if prev then none
  else
    alts.findSome? fun alt =>
      let ok := if ci then isPrefixIC alt.data suf else alt.data.isPrefixOf suf
      if ok then
        let r := suf.drop alt.length
        let ns := (r.takeWhile isSpaceChar).length
        if ns = 0 then none
        else
          let cap := (r.drop ns).takeWhile (fun c => ! locStop c)
          if cap ≠ [] then some cap
          else if 2 ≤ ns then some [' ']
          else none
      else none

/-- Cut the text from the first position where any alternative matches
(`re.sub(r'(alt1|alt2|…).*', '', s)`, no word boundaries). -/
def cutAtAny (alts : List (List Char)) : List Char → List Char
  | [] => []
  | c :: rest =>
    if alts.any (fun a => a ≠ [] && a.isPrefixOf (c :: rest)) then []
    else c :: cutAtAny alts rest

/-- Models `extract_location` (nlp.py): accented preposition pattern on the raw
text first (IGNORECASE, trailing-filler trim), then the diacritics-folded
fallback. -/
def extractLocation (raw : List Char) : Option String :=
  match searchDriver (matchLocation ["ở", "tại", "o", "tai"] true) false raw with
  | some cap =>
    let loc := stripL cap
    some (String.mk (stripL (cutAtAny
      ["nhé".data, "giúp".data, "giup".data, "giùm".data] loc)))
  | none =>
    let s := removeDiacriticsL (lowerL raw)
    match searchDriver (matchLocation ["o", "tai"] false) false s with
    | some cap => some (String.mk (stripL cap))
    | none => none

/-! ### Event-name extraction (`extract_event_candidate_from_intent`,
`clean_event_name`) and the main parser (`parse_text`) -/

/-- Models `re.sub(r'\b(alt1|alt2|…)\b', '', s)`. -/
def subWordAlts (alts : List String) (s : List Char) : List Char :=
  subDriver (fun prev suf =>
    if prev then none
    else alts.findSome? fun a =>
      if a.data ≠ [] && a.data.isPrefixOf suf && noWordAt (List.drop a.data.length suf)
      then some (([] : List Char), a.data.length - 1) else none) false s

/-- Models `re.sub(r'(alt1|alt2|…)', '', s)` (no word boundaries). -/
def subAlts (alts : List String) (s : List Char) : List Char :=
  subDriver (fun _ suf =>
    alts.findSome? fun a =>
      if a.data ≠ [] && a.data.isPrefixOf suf
      then some (([] : List Char), a.data.length - 1) else none) false s

/-- Models `re.sub(r'\b(alt1|…)\b.*', '', s)`: cut from the first word-bounded
occurrence of an alternative to the end. -/
def cutWordAlts (alts : List String) : Bool → List Char → List Char
  | _, [] => []
  | prev, c :: rest =>
    if !prev && alts.any (fun a =>
        a.data ≠ [] && a.data.isPrefixOf (c :: rest) &&
        noWordAt (List.drop a.data.length (c :: rest))) then []
    else c :: cutWordAlts alts (isWordChar c) rest

/-- Models `re.sub(r'nhắc.*trước.*', '', s)`: cut from the first `nhắc` that has
a `trước` somewhere after it. -/
def cutNhacTruoc : List Char → List Char
  | [] => []
  | c :: rest =>
    if "nhắc".data.isPrefixOf (c :: rest) &&
        containsLit "trước".data (List.drop 4 (c :: rest)) then []
    else c :: cutNhacTruoc rest

/-- Models `re.sub(r'(o|tai)\s+.*', '', s)`: cut at a bare `o`/`tai` followed by
whitespace (no word boundary). -/
def cutOTai : List Char → List Char
  | [] => []
  | c :: rest =>
    if ["o", "tai"].any (fun alt =>
        alt.data.isPrefixOf (c :: rest) &&
        (List.drop alt.data.length (c :: rest)).takeWhile isSpaceChar ≠ []) then []
    else c :: cutOTai rest

/-- Models `(\d+)\s*(unit1|…)\s*nữa` at one position, returning the number. -/
def matchRelUnit (units : List String) (suf : List Char) : Option Nat :=
  let (ds, r) := takeDigitRun suf
  if ds = [] then none
  else
    let r2 := dropSpacesL r
    (units.findSome? fun u =>
      match dropLit u.data r2 with
      | none => none
      | some r3 =>
        if "nữa".data.isPrefixOf (dropSpacesL r3) then some () else none).map
      fun _ => digitsToNat ds

/-- Models `re.search(r'(\d+)\s*(phút|phut|p)\s*nữa', t)` (relative minutes). -/
def searchRelMin (t : List Char) : Option Nat :=
  searchDriver (fun _ suf => matchRelUnit ["phút", "phut", "p"] suf) false t

/-- Models `re.search(r'(\d+)\s*(giờ|gio|g|h)\s*nữa', t)` (relative hours). -/
def searchRelHr (t : List Char) : Option Nat :=
  searchDriver (fun _ suf => matchRelUnit ["giờ", "gio", "g", "h"] suf) false t

/-- Models `re.sub(r'\d+\s*(phút|phut|p|ph|giờ|gio|g|h)\s*nữa', '', t)`:
remove the relative fragment. -/
def subRelTime (s : List Char) : List Char :=
  subDriver (fun _ suf =>
    let (ds, r) := takeDigitRun suf
    if ds = [] then none
    else
      let ns := (r.takeWhile isSpaceChar).length
      let r2 := r.drop ns
      ["phút", "phut", "p", "ph", "giờ", "gio", "g", "h"].findSome? fun u =>
        match dropLit u.data r2 with
        | none => none
        | some r3 =>
          let ns2 := (r3.takeWhile isSpaceChar).length
          if "nữa".data.isPrefixOf (r3.drop ns2)
          then some (([] : List Char), ds.length + ns + u.data.length + ns2 + 3 - 1)
          else none) false s

/-- The clock-token pattern at one position: one or two digits, a colon
or `h`, then up to two more digits (greedy), removed. -/
def subClock (s : List Char) : List Char :=
  subDriver (fun _ suf =>
    [2, 1].findSome? fun dlen =>
      let ds := suf.take dlen
      if ds.length = dlen && ds.all Char.isDigit &&
          ((suf.drop dlen).take 1 = [':'] || (suf.drop dlen).take 1 = ['h']) then
        let tl := min 2 ((suf.drop (dlen + 1)).takeWhile Char.isDigit).length
        some (([] : List Char), dlen + 1 + tl - 1)
      else none) false s

/-- The location-phrase removal of `clean_event_name`:
`re.sub(r'(o|tai)\s+[^,.;]+', '', s)` on every occurrence. -/
def subOTaiLoc (s : List Char) : List Char :=
  subDriver (fun _ suf =>
    ["o", "tai"].findSome? fun alt =>
      match dropLit alt.data suf with
      | none => none
      | some r =>
        let ns := (r.takeWhile isSpaceChar).length
        if ns = 0 then none
        else
          let cap := (r.drop ns).takeWhile (fun c => ! locStop c)
          if cap ≠ [] then some (([] : List Char), alt.length + ns + cap.length - 1)
          else if 2 ≤ ns then some (([] : List Char), alt.length + ns - 1)
          else none) false s

/-- The terminators of the lazy intent capture `(.*?)(?:,|nhac|luc|o|tai|$)`. -/
def intentTerms : List (List Char) :=
  [",".data, "nhac".data, "luc".data, "o".data, "tai".data]

/-- The lazy capture: the shortest prefix ending where a terminator (or
the end of the string) begins. -/
def captureToTerm : List Char → List Char
  | [] => []
  | c :: rest =>
    if intentTerms.any (fun tm => tm.isPrefixOf (c :: rest)) then []
    else c :: captureToTerm rest

/-- One intent pattern `(?:verb1|verb2|…)\s+(.*?)(?:,|nhac|luc|o|tai|$)`
at one position (alternatives in written order; the pattern succeeds as
soon as a verb is followed by whitespace, because `$` always terminates
the lazy capture). -/
def matchIntentAt (verbs : List String) (suf : List Char) : Option (List Char) :=
  verbs.findSome? fun vb =>
    match dropLit vb.data suf with
    | none => none
    | some r =>
      let ns := (r.takeWhile isSpaceChar).length
      if ns = 0 then none else some (captureToTerm (r.drop ns))

/-- The post-capture cleanup applied to an intent match. -/
def intentClean (cand0 : List Char) : List Char :=
  let c1 := stripL cand0
  let c2 := subWordAlts ["toi", "tui", "tao", "minh"] c1
  let c3 := cutWordAlts ["nhac", "truoc", "phut", "gio", "h", "ngay"] false c2
  let c4 := cutWordAlts ["luc"] false c3
  let c5 := cutOTai c4
  stripL (collapseWs c5)

/-- Models `extract_event_candidate_from_intent` (nlp.py): fold diacritics,
re-apply the shorthand and numeral tables, then try the two intent
patterns in order; a pattern whose cleaned capture is empty falls through
to the next. -/
def extractEventCandidateFromIntent (raw : List Char) : Option (List Char) :=
  let s0 := removeDiacriticsL (lowerL raw)
  let s1 := applyAsciiMap s0
  let s2 := replaceVnNum s1
  let s := stripL (collapseWs s2)
  let try1 : Option (List Char) :=
    match searchDriver (fun _ suf =>
        matchIntentAt ["muon", "can", "dinh", "hay", "giup", "tao", "tao cho", "tao ra"]
          suf) false s with
    | some cand => (let c := intentClean cand; if c = [] then none else some c)
    | none => none
  match try1 with
  | some c => some c
  | none =>
    match searchDriver (fun _ suf =>
        matchIntentAt ["toi", "tui", "tao", "minh"] suf) false s with
    | some cand => (let c := intentClean cand; if c = [] then none else some c)
    | none => none

/-- Models `clean_event_name` (nlp.py): intent capture first, else strip known
fragments from the normalized sentence; the generic title on emptiness. -/
def cleanEventName (t : List Char) : List Char :=
  match extractEventCandidateFromIntent t with
  | some cand => stripL cand
  | none =>
    let s1 := subWordAlts
      ["nhắc", "nhac", "tao", "tạo", "sự kiện", "su kien", "hãy", "hay", "giup", "giúp"] t
    let s2 := subRelTime s1
    let s3 := cutNhacTruoc s2
    let s4 := cutWordAlts ["lúc"] false s3
    let s5 := subOTaiLoc s4
    let s6 := subAlts
      ["hôm nay", "hom nay", "mai", "sáng", "sang", "trưa", "trua",
       "chiều", "chieu", "tối", "toi", "đêm", "dem"] s5
    let s7 := subClock s6
    let s8 := stripL (collapseWs s7)
    if s8 = [] then "Sự kiện".data else s8

/-- The two importance keyword searches of `parse_text` (checked in
sequence, so critical wins over important). -/
def extractImportance (t : List Char) : String :=
  let imp1 := if containsLit "quan trọng".data t || containsLit "uu tiên".data t ||
      containsLit "uu tien".data t then "important" else "normal"
  if containsLit "cực quan trọng".data t || containsLit "khan cap".data t ||
      containsLit "khan cấp".data t || containsLit "cuc quan trong".data t
  then "critical" else imp1

/-- The dict `parse_text` returns. -/
structure EventDraft where
  event : String
  start_time : String
  end_time : Option String
  location : Option String
  reminder_minutes : Nat
  importance : String
  repeatRule : Option String
  repeat_count : Nat
  notified : Nat
  isStop : Nat
  deriving DecidableEq, Repr

/-- The date sub-resolution of `parse_text`:
`adv_date or extract_date(t) or now.date()`. -/
def resolveDate (now : PyDateTime) (t : List Char) : PyDate :=
  match extractAdvancedRelativeDate now t with
  | some dd => dd
  | none =>
    match extractDate now t with
    | some dd => dd
    | none => now.dateOf

/-- The start-instant resolution of `parse_text` (nlp.py lines 443–492),
up to and including second-flooring: relative offsets first; otherwise
date (advanced → keyword/explicit → today) combined with an explicit
time-of-day (validated as Python `time(h, mn)` construction), else a
vague-time default, else the general fallback `fb` (the
`dateparser.parse` call, abstracted as a parameter; the `default=now`
the raw call would use is captured by the instantiation).  `now` stands
for the single `datetime.now(LOCAL_TZ)` instant of the call. -/
def resolveStart (fb : String → Option PyDateTime) (now : PyDateTime)
    (t rawL : List Char) : Option PyDateTime :=
  (match searchRelMin t with
   | some n => some (addSecs now (n * 60))
   | none =>
     match searchRelHr t with
     | some n => some (addSecs now (n * 3600))
     | none =>
       match extractTime t with
       | some (h, mn) =>
         if h < 24 && mn < 60
         then some (combine (resolveDate now t) h mn) else none
       | none =>
         match guessNaturalTime t with
         | some (h, mn) => some (combine (resolveDate now t) h mn)
         | none => fb (String.mk rawL)).map floorMin

/-- Models `parse_text` (nlp.py): normalize, resolve the start, apply the
past-time day advance, extract the attributes, assemble the draft.
`end_time` is always `None` in the source (line 511). -/
def parseText (fb : String → Option PyDateTime) (now : PyDateTime)
    (text : String) : Option EventDraft :=
  if stripL text.data = [] then none
  else
    match resolveStart fb now ((norm (String.mk (stripL text.data))).data)
        (stripL text.data) with
    | none => none
    | some ds =>
      some { event := String.mk (cleanEventName
               (subRelTime ((norm (String.mk (stripL text.data))).data))),
             start_time := isoFormat (if (toSecs ds : Int) < (toSecs now : Int) - 5
               then addDays ds 1 else ds),
             end_time := none,
             location := extractLocation (stripL text.data),
             reminder_minutes := extractReminder
               (subRelTime ((norm (String.mk (stripL text.data))).data)),
             importance := extractImportance ((norm (String.mk (stripL text.data))).data),
             repeatRule := extractRepeat ((norm (String.mk (stripL text.data))).data),
             repeat_count := 0, notified := 0, isStop := 0 }

/-! ## Concrete instances used by witnesses and counterexamples -/

/-- A sample stored row. -/
def rowA : EventRow :=
  { id := 1, event := "họp nhóm", start_time := "2025-11-15T14:00:00+07:00",
    location := some "phòng 302", reminder_minutes := some 15 }

/-- A second sample stored row. -/
def rowB : EventRow :=
  { id := 2, event := "đi học", start_time := "2025-11-16T08:00:00+07:00" }

/-- A row whose `start_time` is not an ISO-8601 instant. -/
def rowBadStart : EventRow :=
  { id := 3, event := "hop", start_time := "not-a-date" }

/-- A due row with `pending_auto_mark = 1`. -/
def rowPending : EventRow :=
  { id := 4, event := "họp", start_time := "2025-11-15T14:00:00+07:00",
    reminder_minutes := some 15, importance := "normal", pending_auto_mark := 1 }

/-- A due, important, unfired row. -/
def rowDue : EventRow :=
  { id := 5, event := "họp", start_time := "2025-11-15T14:00:00+07:00",
    reminder_minutes := some 15, importance := "important" }

/-- A due row carrying the parametrized cadence tag produced by the
extractor for an "every 2 days" phrase. -/
def rowEveryN : EventRow :=
  { id := 6, event := "học", start_time := "2025-11-15T14:00:00+07:00",
    reminder_minutes := some 15, importance := "normal",
    repeatRule := some "every_2_ngay" }

/-- A weekly row at cap after one fire (normal importance, cap 1). -/
def rowWeekly : EventRow :=
  { id := 7, event := "họp dự án", start_time := "2025-11-15T14:00:00+07:00",
    reminder_minutes := some 30, importance := "normal",
    repeatRule := some "weekly" }

/-- A critical weekly row (cap 3). -/
def rowW5 : EventRow :=
  { id := 8, event := "họp tuần", start_time := "2025-11-15T14:00:00+07:00",
    reminder_minutes := some 30, importance := "critical",
    repeatRule := some "weekly" }

/-- Three consecutive poll-tick evaluations of one event. -/
def tick3 (now1 now2 now3 : PyDateTime) (ev : EventRow) : EventRow :=
  (processEvent now3 (processEvent now2 (processEvent now1 ev).row).row).row

/-- The abstracted general-purpose fallback that always fails (the
`dateparser.parse(raw, languages=["vi"], default=now)` call raises
`TypeError` under `dateutil` — `languages` is not a keyword of
`dateutil.parser.parse` — and the surrounding `except` turns that into
no result). -/
def fbNone : String → Option PyDateTime := fun _ => none

/-- A fixed clock for the parsing scenarios: 2025-11-01T10:00:00+07:00. -/
def nowB : PyDateTime := ⟨2025, 11, 1, 10, 0, 0⟩

/-- Scenario B of the spec, in the Vietnamese phrasing the extractor
patterns expect. -/
def rawB : String := "họp 15/11/2025 14:00 - 15:30, ở phòng 101, nhắc trước 30 phút"

/-- An explicit full past date with a time. -/
def rawC : String := "họp 15/11/2020 14:00"

/-- The resolved (pre-correction) start of `rawC`. -/
def stC : PyDateTime := ⟨2020, 11, 15, 14, 0, 0⟩

/-- A sentence with no temporal signal of any kind. -/
def rawX : String := "xin chào"

def nowW : PyDateTime := ⟨2025, 11, 15, 14, 30, 0⟩

def nowW2 : PyDateTime := ⟨2025, 11, 15, 15, 0, 0⟩

def nowW3 : PyDateTime := ⟨2025, 11, 15, 16, 0, 0⟩

def stW : PyDateTime := ⟨2025, 11, 15, 14, 0, 0⟩

/-! ## Theorems -/

/-- The under-cap firing step of one poll tick: a due, non-stopped,
non-pending event strictly below the cap even after this fire gets a
notification, an alert, `repeat_count + 1`, and
`next_notify = floor_to_minute(now + REPEAT_DELAY)`. -/
theorem processEvent_fire_under_cap (now : PyDateTime) (ev : EventRow) (st : PyDateTime)
    (hstop : ev.isStop ≠ 1)
    (hparse : parseIso ev.start_time = some st)
    (hpend : ev.pending_auto_mark ≠ 1)
    (hdue : isDue now ev (floorMin st) = true)
    (hcap : ev.repeat_count + 1 < importanceCap ev.importance) :
    processEvent now ev =
      ⟨{ ev with repeat_count := ev.repeat_count + 1,
                 next_notify := some (isoFormat (floorMin (addSecs now 60))) }, true,
        some ⟨ev.event, ev.start_time, ev.location, ev.importance⟩⟩ := by
  unfold processEvent
  rw [if_neg hstop, hparse]
  simp only
  rw [if_neg (by exact fun h => hpend h.1), if_pos ⟨hdue, by omega⟩, if_pos hcap]

/-- The at-cap firing step when the cadence reschedules: the event is
reset against the next occurrence instead of being closed. -/
theorem processEvent_fire_at_cap_sched (now : PyDateTime) (ev : EventRow)
    (st ns nn : PyDateTime)
    (hstop : ev.isStop ≠ 1)
    (hparse : parseIso ev.start_time = some st)
    (hpend : ev.pending_auto_mark ≠ 1)
    (hdue : isDue now ev (floorMin st) = true)
    (hrc : ev.repeat_count < importanceCap ev.importance)
    (hcap : ¬ ev.repeat_count + 1 < importanceCap ev.importance)
    (hsched : scheduleNextOccurrence ev.repeatRule (floorMin st)
        (ev.reminder_minutes.getD 0) = some (ns, nn)) :
    processEvent now ev =
      ⟨{ ev with start_time := isoFormat ns, repeat_count := 0, notified := 0,
                 next_notify := some (isoFormat nn), pending_auto_mark := 0 }, true,
        some ⟨ev.event, ev.start_time, ev.location, ev.importance⟩⟩ := by
  unfold processEvent
  rw [if_neg hstop, hparse]
  simp only
  rw [if_neg (by exact fun h => hpend h.1), if_pos ⟨hdue, hrc⟩, if_neg hcap, hsched]

/-- The at-cap firing step when no cadence reschedules (no cadence at all,
or an unrecognized cadence tag): the event is closed. -/
theorem processEvent_fire_at_cap_close (now : PyDateTime) (ev : EventRow)
    (st : PyDateTime)
    (hstop : ev.isStop ≠ 1)
    (hparse : parseIso ev.start_time = some st)
    (hpend : ev.pending_auto_mark ≠ 1)
    (hdue : isDue now ev (floorMin st) = true)
    (hrc : ev.repeat_count < importanceCap ev.importance)
    (hcap : ¬ ev.repeat_count + 1 < importanceCap ev.importance)
    (hsched : scheduleNextOccurrence ev.repeatRule (floorMin st)
        (ev.reminder_minutes.getD 0) = none) :
    processEvent now ev =
      ⟨{ ev with repeat_count := ev.repeat_count + 1, notified := 1, isStop := 1,
                 next_notify := none, pending_auto_mark := 0 }, true,
        some ⟨ev.event, ev.start_time, ev.location, ev.importance⟩⟩ := by
  unfold processEvent
  rw [if_neg hstop, hparse]
  simp only
  rw [if_neg (by exact fun h => hpend h.1), if_pos ⟨hdue, hrc⟩, if_neg hcap, hsched]

/-- C7: `update_field` called with a field name outside the allow-list
{event, start_time, end_time, location, reminder_minutes, notified,
importance, repeat_count, isStop, next_notify, repeat, pending_auto_mark}
raises a `ValueError` before any store access (the returned error carries
no mutated store), and for every field inside the allow-list the check
does not raise and the update proceeds. -/
theorem c7_update_field_allowlist (store : List EventRow) (eid : Nat)
    (f : String) (v : DBValue) :
    (f ∉ allowedUpdateFields →
      updateEventField store eid f v =
        .error ("Field " ++ f ++ " not allowed to update.")) ∧
    (f ∈ allowedUpdateFields →
      ∃ store2, updateEventField store eid f v = .ok store2) := by
  constructor
  · intro h
    simp [updateEventField, h]
  · intro h
    exact ⟨store.map fun r => if r.id = eid then setField r f v else r,
      by simp [updateEventField, h]⟩

/-- Witness for C7 at the rejected field "color" and the allowed field
"event". -/
theorem c7_update_field_allowlist_witness :
    (updateEventField [rowA, rowB] 1 "color" (DBValue.s "red") =
      .error ("Field " ++ "color" ++ " not allowed to update.")) ∧
    (∃ store2, updateEventField [rowA, rowB] 1 "event" (DBValue.s "học bài") =
      .ok store2) :=
  ⟨(c7_update_field_allowlist [rowA, rowB] 1 "color" (DBValue.s "red")).1 (by decide),
   (c7_update_field_allowlist [rowA, rowB] 1 "event" (DBValue.s "học bài")).2 (by decide)⟩

/-- C9: `mark_notified` sets `notified = 1` and clears `next_notify` and
`pending_auto_mark` on every row with the given id, and leaves every other
field of that row — event, start_time, end_time, location,
reminder_minutes, importance, repeat_count, isStop, repeat — and every
other row unchanged (and preserves the store's length). -/
theorem c9_mark_notified_frame (store : List EventRow) (eid : Nat) :
    (markNotified store eid).length = store.length ∧
    ∀ (i : Nat) (r : EventRow), store[i]? = some r →
      ∃ r2, (markNotified store eid)[i]? = some r2 ∧
        (r.id = eid →
          r2.notified = 1 ∧ r2.next_notify = none ∧ r2.pending_auto_mark = 0 ∧
          r2.id = r.id ∧ r2.event = r.event ∧ r2.start_time = r.start_time ∧
          r2.end_time = r.end_time ∧ r2.location = r.location ∧
          r2.reminder_minutes = r.reminder_minutes ∧
          r2.importance = r.importance ∧ r2.repeat_count = r.repeat_count ∧
          r2.isStop = r.isStop ∧ r2.repeatRule = r.repeatRule) ∧
        (r.id ≠ eid → r2 = r) := by
  refine ⟨by simp [markNotified], fun i r h => ?_⟩
  refine ⟨if r.id = eid
      then { r with notified := 1, next_notify := none, pending_auto_mark := 0 }
      else r, ?_, ?_, ?_⟩
  · simp [markNotified, List.getElem?_map, h]
  · intro hid
    simp [hid]
  · intro hid
    simp [hid]

/-- Witness for C9 on a concrete two-row store: the targeted row is
marked, its other fields survive, and the untargeted row is untouched. -/
theorem c9_mark_notified_frame_witness :
    (∃ r2, (markNotified [rowA, rowB] 1)[0]? = some r2 ∧
      r2.notified = 1 ∧ r2.next_notify = none ∧ r2.pending_auto_mark = 0 ∧
      r2.event = rowA.event ∧ r2.location = rowA.location) ∧
    (∃ r3, (markNotified [rowA, rowB] 1)[1]? = some r3 ∧ r3 = rowB) := by
  obtain ⟨-, hpt⟩ := c9_mark_notified_frame [rowA, rowB] 1
  constructor
  · obtain ⟨r2, h1, h2, -⟩ := hpt 0 rowA rfl
    obtain ⟨n1, n2, n3, -, e1, -, -, l1, -⟩ := h2 rfl
    exact ⟨r2, h1, n1, n2, n3, e1, l1⟩
  · obtain ⟨r3, h1, -, h3⟩ := hpt 1 rowB rfl
    exact ⟨r3, h1, h3 (by decide)⟩

/-- C10: on a poll tick, an event whose stored `start_time` does not parse
as an ISO-8601 instant is skipped with no effect: no notification, no
alert, and an unchanged row. -/
theorem c10_unparseable_start_skipped (now : PyDateTime) (ev : EventRow)
    (h : parseIso ev.start_time = none) :
    processEvent now ev = ⟨ev, false, none⟩ := by
  unfold processEvent
  split
  · rfl
  · rw [h]

/-- Witness for C10: the row whose `start_time` is "not-a-date". -/
theorem c10_unparseable_start_skipped_witness :
    parseIso rowBadStart.start_time = none ∧
    processEvent nowW rowBadStart = ⟨rowBadStart, false, none⟩ :=
  ⟨by decide, c10_unparseable_start_skipped nowW rowBadStart (by decide)⟩

/-- C4 (amended): on a poll tick, a non-closed, due event strictly below
its importance cap whose `pending_auto_mark` flag is not set fires a
notification (with an alert) and increments `repeat_count` (the increment
survives the tick except in the cadence-reset branch); if the incremented
count is still below the cap, `next_notify = floor_to_minute(now +
REPEAT_DELAY)` and the event is not closed. -/
theorem c4_poll_tick_fires (now : PyDateTime) (ev : EventRow) (st : PyDateTime)
    (hstop : ev.isStop ≠ 1)
    (hparse : parseIso ev.start_time = some st)
    (hpend : ev.pending_auto_mark ≠ 1)
    (hdue : isDue now ev (floorMin st) = true)
    (hrc : ev.repeat_count < importanceCap ev.importance) :
    (processEvent now ev).fired = true ∧
    (processEvent now ev).alert =
      some ⟨ev.event, ev.start_time, ev.location, ev.importance⟩ ∧
    ((ev.repeat_count + 1 < importanceCap ev.importance ∨
        scheduleNextOccurrence ev.repeatRule (floorMin st)
          (ev.reminder_minutes.getD 0) = none) →
      (processEvent now ev).row.repeat_count = ev.repeat_count + 1) ∧
    (ev.repeat_count + 1 < importanceCap ev.importance →
      (processEvent now ev).row.next_notify =
          some (isoFormat (floorMin (addSecs now 60))) ∧
      (processEvent now ev).row.isStop = ev.isStop ∧
      (processEvent now ev).row.start_time = ev.start_time ∧
      (processEvent now ev).row.notified = ev.notified) := by
  by_cases h2 : ev.repeat_count + 1 < importanceCap ev.importance
  · rw [processEvent_fire_under_cap now ev st hstop hparse hpend hdue h2]
    exact ⟨rfl, rfl, fun _ => rfl, fun _ => ⟨rfl, rfl, rfl, rfl⟩⟩
  · match h3 : scheduleNextOccurrence ev.repeatRule (floorMin st)
        (ev.reminder_minutes.getD 0) with
    | some (ns, nn) =>
      rw [processEvent_fire_at_cap_sched now ev st ns nn hstop hparse hpend hdue hrc h2 h3]
      refine ⟨rfl, rfl, fun hd => ?_, fun hd => absurd hd h2⟩
      rcases hd with hd | hd
      · exact absurd hd h2
      · exact Option.noConfusion hd
    | none =>
      rw [processEvent_fire_at_cap_close now ev st hstop hparse hpend hdue hrc h2 h3]
      exact ⟨rfl, rfl, fun _ => rfl, fun hd => absurd hd h2⟩

/-- Counterexample to C4 as stated: `rowPending` is non-closed, due and
strictly below its cap, yet because `pending_auto_mark = 1` the tick
auto-closes it without firing any notification or alert. -/
theorem c4_counterexample :
    rowPending.isStop ≠ 1 ∧
    parseIso rowPending.start_time = some stW ∧
    isDue nowW rowPending (floorMin stW) = true ∧
    rowPending.repeat_count < importanceCap rowPending.importance ∧
    (processEvent nowW rowPending).fired = false ∧
    (processEvent nowW rowPending).alert = none ∧
    (processEvent nowW rowPending).row.isStop = 1 := by decide

/-- Witness for C4 (amended) at the concrete row `rowDue`. -/
theorem c4_poll_tick_fires_witness :
    (processEvent nowW rowDue).fired = true ∧
    (processEvent nowW rowDue).row.repeat_count = 1 ∧
    (processEvent nowW rowDue).row.next_notify =
      some (isoFormat (floorMin (addSecs nowW 60))) ∧
    (processEvent nowW rowDue).row.isStop = 0 := by
  obtain ⟨h1, -, h3, h4⟩ := c4_poll_tick_fires nowW rowDue stW (by decide) (by decide)
    (by decide) (by decide) (by decide)
  obtain ⟨n1, n2, -, -⟩ := h4 (by decide)
  refine ⟨h1, ?_, n1, ?_⟩
  · have := h3 (Or.inl (by decide))
    simpa using this
  · simpa using n2

/-- The cap-reset step specialized to one fixed cadence tag. -/
theorem c2aux (now : PyDateTime) (ev : EventRow) (st ns : PyDateTime)
    (hstop : ev.isStop ≠ 1)
    (hparse : parseIso ev.start_time = some st)
    (hpend : ev.pending_auto_mark ≠ 1)
    (hdue : isDue now ev (floorMin st) = true)
    (hrc : ev.repeat_count < importanceCap ev.importance)
    (hcap : ¬ ev.repeat_count + 1 < importanceCap ev.importance)
    (hsched : scheduleNextOccurrence ev.repeatRule (floorMin st)
        (ev.reminder_minutes.getD 0) =
      some (ns, floorMin (addSecs ns (-(ev.reminder_minutes.getD 0 * 60))))) :
    processEvent now ev =
        ⟨{ ev with start_time := isoFormat ns, repeat_count := 0, notified := 0,
                   next_notify := some (isoFormat (floorMin
                     (addSecs ns (-(ev.reminder_minutes.getD 0 * 60))))),
                   pending_auto_mark := 0 }, true,
          some ⟨ev.event, ev.start_time, ev.location, ev.importance⟩⟩ ∧
      (processEvent now ev).row.isStop = ev.isStop := by
  have heq := processEvent_fire_at_cap_sched now ev st ns
    (floorMin (addSecs ns (-(ev.reminder_minutes.getD 0 * 60))))
    hstop hparse hpend hdue hrc hcap hsched
  exact ⟨heq, by rw [heq]⟩

/-- C2 (amended): when an event's `repeat_count` reaches its importance
cap during a poll tick and its cadence is one of the three fixed tags
daily/weekly/monthly, the engine computes the next occurrence (daily → +1
day, weekly → +7 days, monthly → calendar-aware next month) and resets the
event as if newly scheduled (new start, `repeat_count = 0`,
`notified = 0`, `next_notify = floor_to_minute(new_start − reminder_lead)`,
`is_stopped` unchanged).  A parametrized every-N-unit cadence such as
`every_2_ngay` is NOT rescheduled: `_schedule_next_occurrence` returns
false for it and the event is closed instead. -/
theorem c2_cap_reset_fixed_cadence (now : PyDateTime) (ev : EventRow) (st : PyDateTime)
    (hstop : ev.isStop ≠ 1)
    (hparse : parseIso ev.start_time = some st)
    (hpend : ev.pending_auto_mark ≠ 1)
    (hdue : isDue now ev (floorMin st) = true)
    (hrc : ev.repeat_count < importanceCap ev.importance)
    (hcap : ¬ ev.repeat_count + 1 < importanceCap ev.importance)
    (hrep : ev.repeatRule = some "daily" ∨ ev.repeatRule = some "weekly" ∨
      ev.repeatRule = some "monthly") :
    ∃ ns, ((ev.repeatRule = some "daily" → ns = addDays (floorMin st) 1) ∧
           (ev.repeatRule = some "weekly" → ns = addDays (floorMin st) 7) ∧
           (ev.repeatRule = some "monthly" → ns = addMonths1 (floorMin st))) ∧
      processEvent now ev =
        ⟨{ ev with start_time := isoFormat ns, repeat_count := 0, notified := 0,
                   next_notify := some (isoFormat (floorMin
                     (addSecs ns (-(ev.reminder_minutes.getD 0 * 60))))),
                   pending_auto_mark := 0 }, true,
          some ⟨ev.event, ev.start_time, ev.location, ev.importance⟩⟩ ∧
      (processEvent now ev).row.isStop = ev.isStop := by
  rcases hrep with h | h | h
  · exact ⟨addDays (floorMin st) 1,
      ⟨fun _ => rfl, fun h2 => absurd (h.symm.trans h2) (by decide),
        fun h2 => absurd (h.symm.trans h2) (by decide)⟩,
      c2aux now ev st (addDays (floorMin st) 1) hstop hparse hpend hdue hrc hcap
        (by rw [h]; rfl)⟩
  · exact ⟨addDays (floorMin st) 7,
      ⟨fun h2 => absurd (h.symm.trans h2) (by decide), fun _ => rfl,
        fun h2 => absurd (h.symm.trans h2) (by decide)⟩,
      c2aux now ev st (addDays (floorMin st) 7) hstop hparse hpend hdue hrc hcap
        (by rw [h]; rfl)⟩
  · exact ⟨addMonths1 (floorMin st),
      ⟨fun h2 => absurd (h.symm.trans h2) (by decide),
        fun h2 => absurd (h.symm.trans h2) (by decide), fun _ => rfl⟩,
      c2aux now ev st (addMonths1 (floorMin st)) hstop hparse hpend hdue hrc hcap
        (by rw [h]; rfl)⟩

/-- Counterexample to C2 as stated: a due event at its cap whose cadence
is the extractor-produced parametrized tag `every_2_ngay` is closed
(`isStop = 1`, `notified = 1`, `next_notify` cleared) instead of being
reset as if newly scheduled. -/
theorem c2_counterexample :
    extractRepeat ((norm "hop moi 2 ngay3").data) = some "every_2_ngay" ∧
    rowEveryN.repeatRule = some "every_2_ngay" ∧
    isDue nowW rowEveryN (floorMin stW) = true ∧
    rowEveryN.repeat_count + 1 = importanceCap rowEveryN.importance ∧
    (processEvent nowW rowEveryN).fired = true ∧
    (processEvent nowW rowEveryN).row.isStop = 1 ∧
    (processEvent nowW rowEveryN).row.notified = 1 ∧
    (processEvent nowW rowEveryN).row.next_notify = none := by decide

/-- Witness for C2 (amended) at the concrete weekly row `rowWeekly`. -/
theorem c2_cap_reset_fixed_cadence_witness :
    (processEvent nowW rowWeekly).row.start_time = "2025-11-22T14:00:00+07:00" ∧
    (processEvent nowW rowWeekly).row.repeat_count = 0 ∧
    (processEvent nowW rowWeekly).row.notified = 0 ∧
    (processEvent nowW rowWeekly).row.next_notify = some "2025-11-22T13:30:00+07:00" ∧
    (processEvent nowW rowWeekly).row.isStop = 0 := by
  obtain ⟨ns, ⟨-, hw, -⟩, heq, -⟩ := c2_cap_reset_fixed_cadence nowW rowWeekly stW
    (by decide) (by decide) (by decide) (by decide) (by decide) (by decide)
    (Or.inr (Or.inl rfl))
  have hns : ns = addDays (floorMin stW) 7 := hw rfl
  subst hns
  rw [heq]
  exact ⟨by decide, by decide, by decide, by decide, by decide⟩

/-- C5: an event with cadence `weekly` and importance `critical` (cap 3)
that is due on three successive poll ticks with no user action ends with
its start rolled forward by exactly 7 days, `repeat_count` reset to 0,
`notified` reset to 0, `next_notify` reset to
`floor_to_minute(new_start − reminder_lead)`, and `isStop` still 0. -/
theorem c5_weekly_critical_roundtrip (ev : EventRow) (st now1 now2 now3 : PyDateTime)
    (himp : ev.importance = "critical") (hrep : ev.repeatRule = some "weekly")
    (hstop : ev.isStop = 0) (hpend : ev.pending_auto_mark = 0)
    (hrc : ev.repeat_count = 0)
    (hparse : parseIso ev.start_time = some st) (hfl : floorMin st = st)
    (hdue1 : isDue now1 ev st = true)
    (hdue2 : isDue now2 (processEvent now1 ev).row st = true)
    (hdue3 : isDue now3 (processEvent now2 (processEvent now1 ev).row).row st = true) :
    tick3 now1 now2 now3 ev =
      { ev with start_time := isoFormat (addDays st 7),
                repeat_count := 0, notified := 0,
                next_notify := some (isoFormat (floorMin
                  (addSecs (addDays st 7) (-(ev.reminder_minutes.getD 0 * 60))))),
                pending_auto_mark := 0 } ∧
    (tick3 now1 now2 now3 ev).isStop = 0 := by
  have hstop1 : ev.isStop ≠ 1 := by rw [hstop]; decide
  have hpend1 : ev.pending_auto_mark ≠ 1 := by rw [hpend]; decide
  have hcap3 : importanceCap ev.importance = 3 := by rw [himp]; rfl
  have h1 := processEvent_fire_under_cap now1 ev st hstop1 hparse hpend1
    (by rw [hfl]; exact hdue1) (by rw [hrc, hcap3]; decide)
  have h1row := congrArg TickOutcome.row h1
  rw [h1row] at hdue2
  have h2 := processEvent_fire_under_cap now2
    { ev with repeat_count := ev.repeat_count + 1,
              next_notify := some (isoFormat (floorMin (addSecs now1 60))) }
    st hstop1 hparse hpend1 (by rw [hfl]; exact hdue2)
    (by show ev.repeat_count + 1 + 1 < importanceCap ev.importance
        rw [hrc, hcap3]; decide)
  have h2row := congrArg TickOutcome.row h2
  rw [h1row, h2row] at hdue3
  have h3 := processEvent_fire_at_cap_sched now3
    { ev with repeat_count := ev.repeat_count + 1 + 1,
              next_notify := some (isoFormat (floorMin (addSecs now2 60))) }
    st (addDays (floorMin st) 7)
    (floorMin (addSecs (addDays (floorMin st) 7) (-(ev.reminder_minutes.getD 0 * 60))))
    hstop1 hparse hpend1 (by rw [hfl]; exact hdue3)
    (by show ev.repeat_count + 1 + 1 < importanceCap ev.importance
        rw [hrc, hcap3]; decide)
    (by show ¬ ev.repeat_count + 1 + 1 + 1 < importanceCap ev.importance
        rw [hrc, hcap3]; decide)
    (by show scheduleNextOccurrence ev.repeatRule (floorMin st)
          (ev.reminder_minutes.getD 0) = _
        rw [hrep]; rfl)
  have h3row := congrArg TickOutcome.row h3
  have htick : tick3 now1 now2 now3 ev =
      (processEvent now3
        { ev with repeat_count := ev.repeat_count + 1 + 1,
                  next_notify := some (isoFormat (floorMin (addSecs now2 60))) }).row := by
    rw [tick3, h1row, h2row]
  have hmain : tick3 now1 now2 now3 ev =
      { ev with start_time := isoFormat (addDays st 7),
                repeat_count := 0, notified := 0,
                next_notify := some (isoFormat (floorMin
                  (addSecs (addDays st 7) (-(ev.reminder_minutes.getD 0 * 60))))),
                pending_auto_mark := 0 } := by
    rw [htick, h3row, hfl]
  exact ⟨hmain, by rw [hmain]; exact hstop⟩

/-- Witness for C5 at the concrete critical weekly row `rowW5`. -/
theorem c5_weekly_critical_roundtrip_witness :
    (tick3 nowW nowW2 nowW3 rowW5).start_time = "2025-11-22T14:00:00+07:00" ∧
    (tick3 nowW nowW2 nowW3 rowW5).repeat_count = 0 ∧
    (tick3 nowW nowW2 nowW3 rowW5).notified = 0 ∧
    (tick3 nowW nowW2 nowW3 rowW5).next_notify = some "2025-11-22T13:30:00+07:00" ∧
    (tick3 nowW nowW2 nowW3 rowW5).isStop = 0 := by
  obtain ⟨h, hstop⟩ := c5_weekly_critical_roundtrip rowW5 stW nowW nowW2 nowW3
    rfl rfl rfl rfl rfl (by decide) (by decide) (by decide) (by decide) (by decide)
  rw [h]
  exact ⟨by decide, by decide, by decide, by decide, by decide⟩


/-- C8 (amended): `normalize` is pure and deterministic (it is embedded
as a function of its input alone), but it is NOT idempotent for every
string: `norm "di,lam" = "di lam"` while `norm "di lam" = "đi làm"` —
the comma-to-space conversion runs after the shorthand expansion, so a
multi-word shorthand key split by punctuation is expanded only on a
second pass. -/
theorem c8_norm_values :
    norm "di,lam" = "di lam" ∧ norm "di lam" = "đi làm" ∧
    norm (norm "di,lam") ≠ norm "di,lam" :=
  ⟨by decide, by decide, by decide⟩

/-- Counterexample to C8 as stated: normalizing the already-normalized
string `norm "di,lam"` is not a no-op. -/
theorem c8_counterexample : norm (norm "di,lam") ≠ norm "di,lam" := by decide

/-- C1 (amended): `parse_text` never extracts a time range — the draft it
returns always has `end_time = None` (nlp.py line 511), for every input,
including a sentence with a dash-separated second time. -/
theorem c1_end_always_absent (fb : String → Option PyDateTime) (now : PyDateTime)
    (text : String) (d : EventDraft) (h : parseText fb now text = some d) :
    d.end_time = none := by
  unfold parseText at h
  by_cases hs : stripL text.data = []
  · rw [if_pos hs] at h
    exact Option.noConfusion h
  · rw [if_neg hs] at h
    rcases hr : resolveStart fb now ((norm (String.mk (stripL text.data))).data)
        (stripL text.data) with _ | ds
    · rw [hr] at h
      exact Option.noConfusion h
    · rw [hr] at h
      have h2 := Option.some.inj h
      subst h2
      rfl

/-- Witness for C1 (amended): the Scenario B sentence parses to a draft,
and that draft's end is absent. -/
theorem c1_end_always_absent_witness :
    ∃ d, parseText fbNone nowB rawB = some d ∧ d.end_time = none := by
  rcases h : parseText fbNone nowB rawB with _ | d
  · exact absurd h (by decide)
  · exact ⟨d, rfl, c1_end_always_absent fbNone nowB rawB d h⟩

/-- Counterexample to C1 as stated: on the Scenario B sentence the draft
has `start = 2025-11-15T14:00:00+07:00`, `reminder_lead = 30` and a
location containing 101 — but `end` is `none`, not the dash-separated
second time 15:30. -/
theorem c1_counterexample :
    (parseText fbNone nowB rawB).map
      (fun d => (d.start_time, d.end_time, d.reminder_minutes, d.location)) =
      some ("2025-11-15T14:00:00+07:00", none, 30, some "phòng 101") ∧
    (parseText fbNone nowB rawB).map EventDraft.end_time ≠
      some (some "2025-11-15T15:30:00+07:00") := by
  constructor
  · decide
  · decide

/-- C3 (amended): the past-time correction of `parse_text` is
unconditional: whenever the fully resolved, minute-floored start is
earlier than `now` by more than 5 seconds, the start is advanced by
exactly one day — regardless of whether the date came from an explicit
dd/mm/yyyy match — and otherwise it is left unchanged. -/
theorem c3_past_start_advanced (fb : String → Option PyDateTime) (now : PyDateTime)
    (text : String) (ds : PyDateTime)
    (hne : stripL text.data ≠ [])
    (hres : resolveStart fb now ((norm (String.mk (stripL text.data))).data)
        (stripL text.data) = some ds) :
    (parseText fb now text).map EventDraft.start_time =
      some (isoFormat (if (toSecs ds : Int) < (toSecs now : Int) - 5
                       then addDays ds 1 else ds)) := by
  unfold parseText
  rw [if_neg hne, hres]
  rfl

/-- Witness for C3 (amended) at the explicit past date `rawC`. -/
theorem c3_past_start_advanced_witness :
    (parseText fbNone nowB rawC).map EventDraft.start_time =
      some (isoFormat (if (toSecs stC : Int) < (toSecs nowB : Int) - 5
                       then addDays stC 1 else stC)) :=
  c3_past_start_advanced fbNone nowB rawC stC (by decide) (by decide)

/-- Counterexample to C3 as stated: `rawC` resolves from an explicit
dd/mm/yyyy match to a past 2020-11-15T14:00, yet `parse_text` advances
it by one day to 2020-11-16T14:00 instead of leaving it unchanged. -/
theorem c3_counterexample :
    (parseText fbNone nowB rawC).map EventDraft.start_time =
      some "2020-11-16T14:00:00+07:00" ∧
    (parseText fbNone nowB rawC).map EventDraft.start_time ≠
      some "2020-11-15T14:00:00+07:00" := by
  constructor
  · decide
  · decide

/-- C6: when no date/time signal of any kind resolves — no relative
minute/hour offset, no advanced or plain date, no explicit time-of-day,
no vague-time phrase, and the general fallback fails — `parse_text`
returns `None`, never a draft with a guessed or defaulted time. -/
theorem c6_no_signal_returns_none (fb : String → Option PyDateTime)
    (now : PyDateTime) (text : String)
    (hmin : searchRelMin ((norm (String.mk (stripL text.data))).data) = none)
    (hhr : searchRelHr ((norm (String.mk (stripL text.data))).data) = none)
    (hadv : extractAdvancedRelativeDate now
        ((norm (String.mk (stripL text.data))).data) = none)
    (hdate : extractDate now ((norm (String.mk (stripL text.data))).data) = none)
    (htime : extractTime ((norm (String.mk (stripL text.data))).data) = none)
    (hnat : guessNaturalTime ((norm (String.mk (stripL text.data))).data) = none)
    (hfb : fb (String.mk (stripL text.data)) = none) :
    parseText fb now text = none := by
  unfold parseText
  by_cases hs : stripL text.data = []
  · rw [if_pos hs]
  · rw [if_neg hs]
    have hres : resolveStart fb now ((norm (String.mk (stripL text.data))).data)
        (stripL text.data) = none := by
      unfold resolveStart
      rw [hmin, hhr, htime, hnat, hfb]
      rfl
    rw [hres]

/-- Witness for C6 at the signal-free sentence `rawX`. -/
theorem c6_no_signal_returns_none_witness :
    parseText fbNone nowB rawX = none :=
  c6_no_signal_returns_none fbNone nowB rawX (by decide) (by decide) (by decide)
    (by decide) (by decide) (by decide) (by decide)

end SchedAssist
